import Mathlib

/-!
Shallow embedding of `src/excercises/capsule/src/tutorial.rs` from the
tock/book repository.

The file defines the placeholder tutorial capsule `Tutorial<'a, A>`: a
struct holding a borrowed alarm reference and a borrowed humidity-driver
reference, with a constructor `new`, a method `start` with an empty body,
and two no-op trait-callback implementations (`time::Client::fired` and
`HumidityClient::callback`).

Modelling choices:
- The two borrowed references are modelled as values of abstract types
  `A` (the alarm, `&'a A` with `A: Alarm`) and `H` (the humidity driver,
  `&'a HumidityDriver`).
- Rust's `usize` argument of `callback` is modelled as `Nat`.
- Each operation is embedded as a pure function returning a triple: the
  Rust return value (always `Unit`, mirroring Rust's `()`), the capsule
  state after the call, and the list of calls the body made into the two
  stored capability references.  The bodies in the source are empty, so
  each embedded body returns `((), t, [])` - that triple IS the
  translation of an empty Rust method body under this effect model.
-/

/-- A record of a call into one of the capsule's two stored capability
references: a method invocation on the alarm reference or on the humidity
driver reference, identified by the method's name. -/
inductive CapCall where
  | alarmMethod (method : String)
  | humidityMethod (method : String)
deriving DecidableEq

/-- The capsule `Tutorial<'a, A: Alarm>` of `tutorial.rs`: it holds the two
borrowed references `alarm: &'a A` and `humidity: &'a HumidityDriver`. -/
structure Tutorial (A : Type) (H : Type) where
  alarm : A
  humidity : H
deriving DecidableEq

variable {A H : Type}

/-- `Tutorial::new` (tutorial.rs lines 21-26): builds the capsule from the
two given references, storing each one in the corresponding field. -/
def Tutorial.new (alarm : A) (humidity : H) : Tutorial A H :=
  { alarm := alarm, humidity := humidity }

/-- `Tutorial::start` (tutorial.rs lines 28-29): the body is empty.  Under
the effect model it returns Rust's `()`, the unchanged capsule, and an
empty list of capability calls. -/
def Tutorial.start (t : Tutorial A H) : Unit × Tutorial A H × List CapCall :=
  ((), t, [])

/-- `time::Client::fired` for `Tutorial` (tutorial.rs lines 32-34): the
body is empty. -/
def Tutorial.fired (t : Tutorial A H) : Unit × Tutorial A H × List CapCall :=
  ((), t, [])

/-- `HumidityClient::callback` for `Tutorial` (tutorial.rs lines 36-38):
takes the humidity reading (`usize`, modelled as `Nat`); the body is empty
and ignores the argument. -/
def Tutorial.callback (t : Tutorial A H) (humidity : Nat) :
    Unit × Tutorial A H × List CapCall :=
  ((), t, [])

/-- An invocation of one of the capsule's three entry points, with the
argument value for the humidity callback. -/
inductive Event where
  | start
  | fired
  | callback (humidity : Nat)
deriving DecidableEq

/-- The state reached after one entry-point invocation: the state component
of the corresponding embedded operation. -/
def step (t : Tutorial A H) : Event → Tutorial A H
  | Event.start => (Tutorial.start t).2.1
  | Event.fired => (Tutorial.fired t).2.1
  | Event.callback h => (Tutorial.callback t h).2.1

/-- The capability calls emitted by one entry-point invocation. -/
def stepCalls (t : Tutorial A H) : Event → List CapCall
  | Event.start => (Tutorial.start t).2.2
  | Event.fired => (Tutorial.fired t).2.2
  | Event.callback h => (Tutorial.callback t h).2.2

/-- The state after a finite sequence of entry-point invocations. -/
def run (t : Tutorial A H) : List Event → Tutorial A H
  | [] => t
  | e :: es => run (step t e) es

/-- All capability calls emitted along a finite sequence of entry-point
invocations, in order. -/
def runCalls (t : Tutorial A H) : List Event → List CapCall
  | [] => []
  | e :: es => stepCalls t e ++ runCalls (step t e) es

/-- C1: For every pair of references (alarm, humidity), `Tutorial::new`
succeeds (it is a total function that cannot fail) and returns a capsule
whose `alarm` field is exactly the given alarm reference and whose
`humidity` field is exactly the given humidity reference. -/
theorem tutorial_new_stores_given_references :
    ∀ (A H : Type) (a : A) (h : H),
      (Tutorial.new a h).alarm = a ∧ (Tutorial.new a h).humidity = h := by
  intro A H a h
  exact ⟨rfl, rfl⟩

/-- C2: `Tutorial::start` has no observable effect on any capsule: it
returns only Rust's unit value, leaves the `alarm` and `humidity` fields
(and hence the whole capsule state) unchanged, and performs no call into
the alarm or humidity capabilities. -/
theorem tutorial_start_no_observable_effect :
    ∀ (A H : Type) (t : Tutorial A H),
      (Tutorial.start t).1 = () ∧
      (Tutorial.start t).2.1 = t ∧
      (Tutorial.start t).2.1.alarm = t.alarm ∧
      (Tutorial.start t).2.1.humidity = t.humidity ∧
      (Tutorial.start t).2.2 = [] := by
  intro A H t
  exact ⟨rfl, rfl, rfl, rfl, rfl⟩

/-- C3: the timer-fired callback `time::Client::fired` has no observable
effect on any capsule: it returns only Rust's unit value, changes no field
of the capsule, and makes no call into the alarm or humidity
capabilities. -/
theorem tutorial_fired_no_observable_effect :
    ∀ (A H : Type) (t : Tutorial A H),
      (Tutorial.fired t).1 = () ∧
      (Tutorial.fired t).2.1 = t ∧
      (Tutorial.fired t).2.1.alarm = t.alarm ∧
      (Tutorial.fired t).2.1.humidity = t.humidity ∧
      (Tutorial.fired t).2.2 = [] := by
  intro A H t
  exact ⟨rfl, rfl, rfl, rfl, rfl⟩

/-- C4: for every `usize` input value, `HumidityClient::callback` has no
observable effect on any capsule: it returns only Rust's unit value,
changes no field of the capsule, and makes no call into the alarm or
humidity capabilities. -/
theorem tutorial_callback_no_observable_effect :
    ∀ (A H : Type) (t : Tutorial A H) (n : Nat),
      (Tutorial.callback t n).1 = () ∧
      (Tutorial.callback t n).2.1 = t ∧
      (Tutorial.callback t n).2.1.alarm = t.alarm ∧
      (Tutorial.callback t n).2.1.humidity = t.humidity ∧
      (Tutorial.callback t n).2.2 = [] := by
  intro A H t n
  exact ⟨rfl, rfl, rfl, rfl, rfl⟩

/-- C5: no operation of the capsule signals an error, validates its input,
or produces an output: each operation is a total function (it succeeds
unconditionally on every argument), its result carries no error case - the
constructor always yields exactly the capsule built from its arguments,
and each of `start`, `fired` and `callback` always yields exactly the unit
value with the unchanged state and no capability calls, whatever the
arguments are. -/
theorem tutorial_operations_total_no_error :
    ∀ (A H : Type) (a : A) (h : H) (t : Tutorial A H) (n : Nat),
      Tutorial.new a h = { alarm := a, humidity := h } ∧
      Tutorial.start t = ((), t, []) ∧
      Tutorial.fired t = ((), t, []) ∧
      Tutorial.callback t n = ((), t, []) := by
  intro A H a h t n
  exact ⟨rfl, rfl, rfl, rfl⟩

/-- C6: the capsule is never mutated after construction: every single
entry-point invocation leaves the state fixed (the step relation has a
single state and no transitions out of it), and hence every finite
sequence of invocations of `start`, `fired` and `callback` (with any input
values) ends in the state the capsule had immediately after
construction. -/
theorem tutorial_never_mutated :
    ∀ (A H : Type) (t : Tutorial A H),
      (∀ e : Event, step t e = t) ∧
      (∀ es : List Event, run t es = t) := by
  intro A H t
  refine ⟨?_, ?_⟩
  · intro e
    cases e <;> rfl
  · intro es
    induction es generalizing t with
    | nil => rfl
    | cons e es ih =>
      have hstep : step t e = t := by cases e <;> rfl
      calc run t (e :: es) = run (step t e) es := rfl
        _ = run t es := by rw [hstep]
        _ = t := ih t

/-- C7: both references held by the capsule remain in place for the
capsule's entire lifetime: after any finite sequence of operations the
capsule still holds exactly the alarm reference and the humidity-driver
reference it was constructed with - no operation of this file drops,
replaces or otherwise invalidates either reference (their memory validity
itself is enforced externally by Rust's lifetime rules, which is modelled
here by the references being immutable values). -/
theorem tutorial_references_preserved :
    ∀ (A H : Type) (a : A) (h : H) (es : List Event),
      (run (Tutorial.new a h) es).alarm = a ∧
      (run (Tutorial.new a h) es).humidity = h := by
  intro A H a h es
  have hrun : ∀ (t : Tutorial A H) (es : List Event), run t es = t := by
    intro t es
    induction es generalizing t with
    | nil => rfl
    | cons e es ih =>
      have hstep : step t e = t := by cases e <;> rfl
      calc run t (e :: es) = run (step t e) es := rfl
        _ = run t es := by rw [hstep]
        _ = t := ih t
  rw [hrun]
  exact ⟨rfl, rfl⟩

/-- C8: the humidity callback is insensitive to its input: for any capsule
and any two humidity values, the two invocations produce identical results,
identical final states and identical capability-call lists (two-run
noninterference of the input value). -/
theorem tutorial_callback_noninterference :
    ∀ (A H : Type) (t : Tutorial A H) (h1 h2 : Nat),
      Tutorial.callback t h1 = Tutorial.callback t h2 := by
  intro A H t h1 h2
  rfl

/-- C9: the three entry points are idempotent and pairwise commutative as
functions on the capsule state: performing any one of them twice equals
performing it once, and performing any two of them in either order (with
any input values for the humidity callback) yields the same state. -/
theorem tutorial_steps_idempotent_commutative :
    ∀ (A H : Type) (t : Tutorial A H) (h h1 h2 : Nat),
      step (step t Event.start) Event.start = step t Event.start ∧
      step (step t Event.fired) Event.fired = step t Event.fired ∧
      step (step t (Event.callback h)) (Event.callback h) =
        step t (Event.callback h) ∧
      step (step t Event.start) Event.fired =
        step (step t Event.fired) Event.start ∧
      step (step t Event.start) (Event.callback h) =
        step (step t (Event.callback h)) Event.start ∧
      step (step t Event.fired) (Event.callback h) =
        step (step t (Event.callback h)) Event.fired ∧
      step (step t (Event.callback h1)) (Event.callback h2) =
        step (step t (Event.callback h2)) (Event.callback h1) := by
  intro A H t h h1 h2
  exact ⟨rfl, rfl, rfl, rfl, rfl, rfl, rfl⟩

/-- C10: the capsule never exercises its capabilities: along every finite
sequence of entry-point invocations, no method of the stored alarm
reference is ever invoked (in particular no alarm is ever set) and no
method of the stored humidity-driver reference is ever invoked (in
particular no humidity reading is ever requested) - the emitted
capability-call list is always empty. -/
theorem tutorial_never_calls_capabilities :
    ∀ (A H : Type) (t : Tutorial A H) (es : List Event),
      runCalls t es = [] := by
  intro A H t es
  induction es generalizing t with
  | nil => rfl
  | cons e es ih =>
    have hcalls : stepCalls t e = [] := by cases e <;> rfl
    calc runCalls t (e :: es) = stepCalls t e ++ runCalls (step t e) es := rfl
      _ = [] ++ runCalls (step t e) es := by rw [hcalls]
      _ = runCalls (step t e) es := List.nil_append _
      _ = [] := ih (step t e)
